import Mathlib

/-!
Verification of the flatten-string utility (src/main.rs).

The program listens for a configured hotkey; on each press it simulates a
copy chord, reads the clipboard, removes newline characters from the text,
writes the result back, and simulates a paste chord.  We embed the text
transform, the two keyboard chords, the pipeline's control flow, and the
listener callback as pure Lean functions, recording the externally visible
actions (simulated key events, sleeps, clipboard reads and writes) in an
explicit trace.
-/

set_option autoImplicit false

namespace FlattenString

/-- Rust `String::replace(pat, to)` specialised to a single-character
pattern `p`: every occurrence of `p` in the character sequence is replaced
by the character sequence `r`; other characters are kept as is. -/
def rustReplaceChar : List Char → Char → List Char → List Char
  | [], _, _ => []
  | c :: cs, p, r => (if c = p then r else [c]) ++ rustReplaceChar cs p r

/-- The transform at src/main.rs line 57:
`original_text.replace('\r', "").replace('\n', " ")`. -/
def removeNewlines (s : List Char) : List Char :=
  rustReplaceChar (rustReplaceChar s '\r' []) '\n' [' ']

/-- The same transform on `String`, as the Rust code applies it to the
clipboard string. -/
def removeNewlinesStr (s : String) : String :=
  String.mk (removeNewlines s.data)

/-- Checks that a text uses only CRLF pairs as line breaks: it is a
sequence of ordinary characters and two-character CRLF sequences, with no
bare carriage return and no bare line feed. -/
def crlfOnly : List Char → Bool
  | [] => true
  | '\r' :: '\n' :: s => crlfOnly s
  | c :: s => decide (c ≠ '\r') && decide (c ≠ '\n') && crlfOnly s

/-- The keys the program distinguishes: the modifier and letter keys used
by the two chords, and any other key (`rdev::Key`), indexed abstractly. -/
inductive Key
  | controlLeft
  | keyC
  | keyV
  | other (n : Nat)
deriving DecidableEq

/-- A key event as delivered or simulated (`rdev::EventType`): only key
identity and press/release phase matter. -/
inductive EventType
  | press (k : Key)
  | release (k : Key)
deriving DecidableEq

/-- One externally visible action of the program: a simulated input event,
a sleep of a given number of milliseconds, a clipboard read, or a clipboard
write of the given text. -/
inductive Step
  | simulate (e : EventType)
  | sleepMs (n : Nat)
  | getClipboard
  | setClipboard (s : List Char)
deriving DecidableEq

/-- `send_ctrl_c` (src/main.rs lines 83 to 93): press ControlLeft, sleep
30 ms, press C, sleep 30 ms, release C, sleep 30 ms, release ControlLeft.
`sim` tells whether each `simulate` call succeeds; the Rust `?` operator
returns early on the first failure.  Returns the trace of performed steps
and whether the whole chord succeeded. -/
def send_ctrl_c (sim : EventType → Bool) : List Step × Bool :=
  if sim (EventType.press Key.controlLeft) = false then
    ([Step.simulate (EventType.press Key.controlLeft)], false)
  else if sim (EventType.press Key.keyC) = false then
    ([Step.simulate (EventType.press Key.controlLeft), Step.sleepMs 30,
      Step.simulate (EventType.press Key.keyC)], false)
  else if sim (EventType.release Key.keyC) = false then
    ([Step.simulate (EventType.press Key.controlLeft), Step.sleepMs 30,
      Step.simulate (EventType.press Key.keyC), Step.sleepMs 30,
      Step.simulate (EventType.release Key.keyC)], false)
  else if sim (EventType.release Key.controlLeft) = false then
    ([Step.simulate (EventType.press Key.controlLeft), Step.sleepMs 30,
      Step.simulate (EventType.press Key.keyC), Step.sleepMs 30,
      Step.simulate (EventType.release Key.keyC), Step.sleepMs 30,
      Step.simulate (EventType.release Key.controlLeft)], false)
  else
    ([Step.simulate (EventType.press Key.controlLeft), Step.sleepMs 30,
      Step.simulate (EventType.press Key.keyC), Step.sleepMs 30,
      Step.simulate (EventType.release Key.keyC), Step.sleepMs 30,
      Step.simulate (EventType.release Key.controlLeft)], true)

/-- `send_ctrl_v` (src/main.rs lines 96 to 106): the same sequence with
the V key in place of the C key. -/
def send_ctrl_v (sim : EventType → Bool) : List Step × Bool :=
  if sim (EventType.press Key.controlLeft) = false then
    ([Step.simulate (EventType.press Key.controlLeft)], false)
  else if sim (EventType.press Key.keyV) = false then
    ([Step.simulate (EventType.press Key.controlLeft), Step.sleepMs 30,
      Step.simulate (EventType.press Key.keyV)], false)
  else if sim (EventType.release Key.keyV) = false then
    ([Step.simulate (EventType.press Key.controlLeft), Step.sleepMs 30,
      Step.simulate (EventType.press Key.keyV), Step.sleepMs 30,
      Step.simulate (EventType.release Key.keyV)], false)
  else if sim (EventType.release Key.controlLeft) = false then
    ([Step.simulate (EventType.press Key.controlLeft), Step.sleepMs 30,
      Step.simulate (EventType.press Key.keyV), Step.sleepMs 30,
      Step.simulate (EventType.release Key.keyV), Step.sleepMs 30,
      Step.simulate (EventType.release Key.controlLeft)], false)
  else
    ([Step.simulate (EventType.press Key.controlLeft), Step.sleepMs 30,
      Step.simulate (EventType.press Key.keyV), Step.sleepMs 30,
      Step.simulate (EventType.release Key.keyV), Step.sleepMs 30,
      Step.simulate (EventType.release Key.controlLeft)], true)

/-- Modelled from the spec: the input-simulation sub-protocol, used
identically for copy and paste and parameterized by which letter key
accompanies the modifier: press modifier, wait 30 ms, press letter,
wait 30 ms, release letter, wait 30 ms, release modifier, with each
press/release call fallible and any failure aborting the remainder. -/
def chordSpec (letter : Key) (sim : EventType → Bool) : List Step × Bool :=
  if sim (EventType.press Key.controlLeft) = false then
    ([Step.simulate (EventType.press Key.controlLeft)], false)
  else if sim (EventType.press letter) = false then
    ([Step.simulate (EventType.press Key.controlLeft), Step.sleepMs 30,
      Step.simulate (EventType.press letter)], false)
  else if sim (EventType.release letter) = false then
    ([Step.simulate (EventType.press Key.controlLeft), Step.sleepMs 30,
      Step.simulate (EventType.press letter), Step.sleepMs 30,
      Step.simulate (EventType.release letter)], false)
  else if sim (EventType.release Key.controlLeft) = false then
    ([Step.simulate (EventType.press Key.controlLeft), Step.sleepMs 30,
      Step.simulate (EventType.press letter), Step.sleepMs 30,
      Step.simulate (EventType.release letter), Step.sleepMs 30,
      Step.simulate (EventType.release Key.controlLeft)], false)
  else
    ([Step.simulate (EventType.press Key.controlLeft), Step.sleepMs 30,
      Step.simulate (EventType.press letter), Step.sleepMs 30,
      Step.simulate (EventType.release letter), Step.sleepMs 30,
      Step.simulate (EventType.release Key.controlLeft)], true)

/-- The outcomes of the external capabilities for one pipeline run:
whether each simulated input event succeeds, whether the clipboard read
succeeds, and whether the clipboard write succeeds. -/
structure Env where
  sim : EventType → Bool
  readOk : Bool
  writeOk : Bool

/-- The failures `remove_newlines_and_paste` can report (each `?` site). -/
inductive PipeErr
  | simCopyFailure
  | clipboardReadFailure
  | clipboardWriteFailure
  | simPasteFailure
deriving DecidableEq

/-- `remove_newlines_and_paste` (src/main.rs lines 32 to 78).  `clip` is
the text the clipboard holds when the read at step 3 happens (populated
externally by the foreground application after the simulated copy).
Returns the trace of performed steps, the clipboard contents after the
run, and the function's result. -/
def remove_newlines_and_paste (env : Env) (clip : List Char) :
    List Step × List Char × Except PipeErr Unit :=
  let copied := send_ctrl_c env.sim
  if copied.2 = false then
    (copied.1, clip, Except.error PipeErr.simCopyFailure)
  else
    let t2 := copied.1 ++ [Step.sleepMs 150, Step.getClipboard]
    if env.readOk = false then
      (t2, clip, Except.error PipeErr.clipboardReadFailure)
    else if clip = [] then
      (t2, clip, Except.ok ())
    else
      let modified := removeNewlines clip
      let t3 := t2 ++ [Step.setClipboard modified]
      if env.writeOk = false then
        (t3, clip, Except.error PipeErr.clipboardWriteFailure)
      else
        let pasted := send_ctrl_v env.sim
        let t5 := t3 ++ [Step.sleepMs 150] ++ pasted.1
        if pasted.2 = false then
          (t5, modified, Except.error PipeErr.simPasteFailure)
        else
          (t5, modified, Except.ok ())

/-- What the listener callback logs: the pipeline's error, if any. -/
def loggedError : Except PipeErr Unit → Option PipeErr
  | Except.error e => some e
  | Except.ok _ => none

/-- The listener callback (src/main.rs lines 122 to 133): on a press of
the trigger key it runs the pipeline and logs any error; every other
event is ignored.  Returns the trace, the clipboard after the event, and
the logged error, if any. -/
def callback (target : Key) (env : Env) (clip : List Char)
    (ev : EventType) : List Step × List Char × Option PipeErr :=
  match ev with
  | EventType.press k =>
      if k = target then
        let r := remove_newlines_and_paste env clip
        (r.1, r.2.1, loggedError r.2.2)
      else ([], clip, none)
  | EventType.release _ => ([], clip, none)

/-- The listener loop (`rdev::listen` driving the callback): processes
every delivered event in order, threading the clipboard state, and never
stops on a logged pipeline error. -/
def listenerLoop (target : Key) (env : Env) :
    List Char → List EventType → List Step × List Char
  | clip, [] => ([], clip)
  | clip, ev :: evs =>
      let r := callback target env clip ev
      let rest := listenerLoop target env r.2.1 evs
      (r.1 ++ rest.1, rest.2)

/-- The environment in which every external call succeeds. -/
def envAllOk : Env where
  sim := fun _ => true
  readOk := true
  writeOk := true

/-- The environment in which only the clipboard write fails. -/
def envWriteFail : Env where
  sim := fun _ => true
  readOk := true
  writeOk := false

/-- The all-succeeding simulation capability. -/
def simAllOk : EventType → Bool := fun _ => true

lemma rustReplaceChar_cr_eq_filter (s : List Char) :
    rustReplaceChar s '\r' [] = s.filter (fun c => c ≠ '\r') := by
  induction s with
  | nil => rfl
  | cons c cs ih =>
      by_cases hc : c = '\r' <;>
        simp [rustReplaceChar, List.filter_cons, hc, ih]

lemma rustReplaceChar_lf_eq_map (s : List Char) :
    rustReplaceChar s '\n' [' '] =
      s.map (fun c => if c = '\n' then ' ' else c) := by
  induction s with
  | nil => rfl
  | cons c cs ih =>
      by_cases hc : c = '\n' <;>
        simp [rustReplaceChar, hc, ih]

/-- Characterisation of the transform: drop every carriage return, then map
every line feed to a space. -/
lemma removeNewlines_eq (s : List Char) :
    removeNewlines s =
      (s.filter (fun c => c ≠ '\r')).map
        (fun c => if c = '\n' then ' ' else c) := by
  unfold removeNewlines
  rw [rustReplaceChar_cr_eq_filter, rustReplaceChar_lf_eq_map]

/-- Unfolding the transform over the first character of the input. -/
lemma removeNewlines_cons (c : Char) (s : List Char) :
    removeNewlines (c :: s) =
      (if c = '\r' then [] else if c = '\n' then [' '] else [c]) ++
        removeNewlines s := by
  simp only [removeNewlines_eq, List.filter_cons]
  by_cases h1 : c = '\r'
  · simp [h1]
  · by_cases h2 : c = '\n' <;> simp [h1, h2]

/-- The transform distributes over concatenation. -/
lemma removeNewlines_append (a b : List Char) :
    removeNewlines (a ++ b) = removeNewlines a ++ removeNewlines b := by
  simp [removeNewlines_eq]

/-- Claim C1: for every input text, the transform produces the input with
all carriage-return characters removed and every remaining line-feed
character replaced by a single space, uniformly for CRLF and bare LF
line endings. -/
theorem removeNewlines_spec (s : List Char) :
    removeNewlines s =
      (s.filter (fun c => c ≠ '\r')).map
        (fun c => if c = '\n' then ' ' else c) :=
  removeNewlines_eq s

/-- Claim C2: for every input text, the transformed output contains zero
carriage returns and zero line feeds, and the number of spaces inserted by
the transform (spaces in the output beyond those already in the input)
equals the number of line feeds remaining after carriage-return removal. -/
theorem removeNewlines_coverage (s : List Char) :
    (removeNewlines s).count '\r' = 0 ∧
    (removeNewlines s).count '\n' = 0 ∧
    (removeNewlines s).count ' ' =
      s.count ' ' + (rustReplaceChar s '\r' []).count '\n' := by
  have hfilter :
      (rustReplaceChar s '\r' []).count '\n' = s.count '\n' := by
    rw [rustReplaceChar_cr_eq_filter]
    simp
  rw [hfilter]
  clear hfilter
  induction s with
  | nil => exact ⟨rfl, rfl, rfl⟩
  | cons c cs ih =>
      obtain ⟨ih1, ih2, ih3⟩ := ih
      by_cases h1 : c = '\r'
      · simpa [removeNewlines_cons, h1, List.count_cons]
          using ⟨ih1, ih2, ih3⟩
      · by_cases h2 : c = '\n'
        · simp [removeNewlines_cons, h1, h2, List.count_cons,
            ih1, ih2, ih3]
          omega
        · by_cases h3 : c = ' ' <;>
            simp [removeNewlines_cons, h1, h2, h3, List.count_cons,
              ih1, ih2, ih3] <;>
            omega

/-- Claim C3: the newline-removal transform is idempotent. -/
theorem removeNewlines_idempotent (s : List Char) :
    removeNewlines (removeNewlines s) = removeNewlines s := by
  induction s with
  | nil => rfl
  | cons c cs ih =>
      have hseg :
          removeNewlines
              (if c = '\r' then [] else if c = '\n' then [' '] else [c]) =
            (if c = '\r' then [] else if c = '\n' then [' '] else [c]) := by
        by_cases h1 : c = '\r' <;> by_cases h2 : c = '\n' <;>
          simp [h1, h2, removeNewlines, rustReplaceChar]
      rw [removeNewlines_cons, removeNewlines_append, hseg, ih]

/-- Claim C4: the scenario from the spec: transforming
the text Hello-CRLF-World-LF-bang yields the text with single spaces. -/
theorem removeNewlines_scenario :
    removeNewlinesStr "Hello\r\nWorld\n!" = "Hello World !" := by
  decide

/-- Claim C9: for every text built using only CRLF pairs as line breaks,
the transformed output is no longer than the input. -/
theorem removeNewlines_crlf_length_le (s : List Char)
    (h : crlfOnly s = true) :
    (removeNewlines s).length ≤ s.length := by
  rw [removeNewlines_eq, List.length_map]
  exact s.length_filter_le _

/-- Witness for claim C9 at a concrete CRLF-only input. -/
theorem removeNewlines_crlf_length_le_witness :
    crlfOnly ['a', '\r', '\n', 'b'] = true ∧
      (removeNewlines ['a', '\r', '\n', 'b']).length ≤
        (['a', '\r', '\n', 'b'] : List Char).length :=
  ⟨by decide, removeNewlines_crlf_length_le _ (by decide)⟩

/-- Claim C10: the transform deletes each carriage return, replaces each
line feed one-for-one by a space, and keeps every other character unchanged
in its original relative order; hence the output length is the input length
minus the number of carriage returns. -/
theorem removeNewlines_pointwise (s : List Char) :
    removeNewlines s =
      s.filterMap (fun c =>
        if c = '\r' then none else if c = '\n' then some ' ' else some c) ∧
    (removeNewlines s).length = s.length - s.count '\r' := by
  induction s with
  | nil => exact ⟨rfl, rfl⟩
  | cons c cs ih =>
      obtain ⟨ih1, ih2⟩ := ih
      have hle : cs.count '\r' ≤ cs.length := cs.count_le_length '\r'
      by_cases h1 : c = '\r'
      · constructor
        · simp [removeNewlines_cons, h1, List.filterMap_cons, ih1]
        · simp [removeNewlines_cons, h1, List.count_cons, ih2]
      · by_cases h2 : c = '\n'
        · constructor
          · simp [removeNewlines_cons, h1, h2, List.filterMap_cons, ih1]
          · simp [removeNewlines_cons, h1, h2, List.count_cons, ih2]
            omega
        · constructor
          · simp [removeNewlines_cons, h1, h2, List.filterMap_cons, ih1]
          · simp [removeNewlines_cons, h1, h2, List.count_cons, ih2]
            omega

/-- Every step the copy chord performs is a key simulation or a sleep. -/
lemma mem_send_ctrl_c_trace {sim : EventType → Bool} {st : Step}
    (h : st ∈ (send_ctrl_c sim).1) :
    st = Step.simulate (EventType.press Key.controlLeft) ∨
    st = Step.sleepMs 30 ∨
    st = Step.simulate (EventType.press Key.keyC) ∨
    st = Step.simulate (EventType.release Key.keyC) ∨
    st = Step.simulate (EventType.release Key.controlLeft) := by
  unfold send_ctrl_c at h
  split_ifs at h <;> simp at h <;> tauto

/-- The copy chord performs no clipboard read. -/
lemma send_ctrl_c_no_getClipboard (sim : EventType → Bool) :
    Step.getClipboard ∉ (send_ctrl_c sim).1 := by
  intro h
  rcases mem_send_ctrl_c_trace h with h1 | h1 | h1 | h1 | h1 <;> simp at h1

/-- The copy chord performs no clipboard write. -/
lemma send_ctrl_c_no_setClipboard (sim : EventType → Bool) (s : List Char) :
    Step.setClipboard s ∉ (send_ctrl_c sim).1 := by
  intro h
  rcases mem_send_ctrl_c_trace h with h1 | h1 | h1 | h1 | h1 <;> simp at h1

/-- The copy chord never presses the V key. -/
lemma send_ctrl_c_no_pressV (sim : EventType → Bool) :
    Step.simulate (EventType.press Key.keyV) ∉ (send_ctrl_c sim).1 := by
  intro h
  rcases mem_send_ctrl_c_trace h with h1 | h1 | h1 | h1 | h1 <;> simp at h1

/-- Claim C5: if the clipboard read returns empty text, the pipeline ends
early and successfully: the clipboard is left unchanged, no clipboard
write is performed, and no paste chord is simulated. -/
theorem empty_clipboard_noop (env : Env)
    (hcopy : (send_ctrl_c env.sim).2 = true) (hread : env.readOk = true) :
    (remove_newlines_and_paste env []).2.2 = Except.ok () ∧
    (remove_newlines_and_paste env []).2.1 = [] ∧
    (∀ s, Step.setClipboard s ∉ (remove_newlines_and_paste env []).1) ∧
    Step.simulate (EventType.press Key.keyV) ∉
      (remove_newlines_and_paste env []).1 := by
  have htuple : remove_newlines_and_paste env [] =
      ((send_ctrl_c env.sim).1 ++ [Step.sleepMs 150, Step.getClipboard],
        [], Except.ok ()) := by
    simp [remove_newlines_and_paste, hcopy, hread]
  refine ⟨by rw [htuple], by rw [htuple], ?_, ?_⟩
  · intro s hmem
    rw [htuple] at hmem
    simp at hmem
    exact send_ctrl_c_no_setClipboard env.sim s hmem
  · intro hmem
    rw [htuple] at hmem
    simp at hmem
    exact send_ctrl_c_no_pressV env.sim hmem

/-- Witness for claim C5: with every external call succeeding and an empty
clipboard, the pipeline returns success. -/
theorem empty_clipboard_noop_witness :
    (remove_newlines_and_paste envAllOk []).2.2 = Except.ok () :=
  (empty_clipboard_noop envAllOk rfl rfl).1

/-- Claim C6: each pipeline step proceeds only if the prior step
succeeded.  A copy-chord failure aborts before any clipboard read; a
clipboard read failure aborts before any write or paste; a clipboard
write failure aborts before the paste chord, leaving the clipboard
holding the original untransformed text. -/
theorem pipeline_short_circuits (env : Env) (clip : List Char) :
    ((send_ctrl_c env.sim).2 = false →
      (remove_newlines_and_paste env clip).2.2 =
        Except.error PipeErr.simCopyFailure ∧
      Step.getClipboard ∉ (remove_newlines_and_paste env clip).1 ∧
      (remove_newlines_and_paste env clip).2.1 = clip) ∧
    ((send_ctrl_c env.sim).2 = true → env.readOk = false →
      (remove_newlines_and_paste env clip).2.2 =
        Except.error PipeErr.clipboardReadFailure ∧
      (∀ s, Step.setClipboard s ∉ (remove_newlines_and_paste env clip).1) ∧
      Step.simulate (EventType.press Key.keyV) ∉
        (remove_newlines_and_paste env clip).1 ∧
      (remove_newlines_and_paste env clip).2.1 = clip) ∧
    ((send_ctrl_c env.sim).2 = true → env.readOk = true → clip ≠ [] →
      env.writeOk = false →
      (remove_newlines_and_paste env clip).2.2 =
        Except.error PipeErr.clipboardWriteFailure ∧
      Step.simulate (EventType.press Key.keyV) ∉
        (remove_newlines_and_paste env clip).1 ∧
      (remove_newlines_and_paste env clip).2.1 = clip) := by
  refine ⟨fun hcopy => ?_, fun hcopy hread => ?_,
    fun hcopy hread hne hwrite => ?_⟩
  · have htuple : remove_newlines_and_paste env clip =
        ((send_ctrl_c env.sim).1, clip,
          Except.error PipeErr.simCopyFailure) := by
      simp [remove_newlines_and_paste, hcopy]
    refine ⟨by rw [htuple], ?_, by rw [htuple]⟩
    rw [htuple]
    exact send_ctrl_c_no_getClipboard env.sim
  · have htuple : remove_newlines_and_paste env clip =
        ((send_ctrl_c env.sim).1 ++ [Step.sleepMs 150, Step.getClipboard],
          clip, Except.error PipeErr.clipboardReadFailure) := by
      simp [remove_newlines_and_paste, hcopy, hread]
    refine ⟨by rw [htuple], ?_, ?_, by rw [htuple]⟩
    · intro s hmem
      rw [htuple] at hmem
      simp at hmem
      exact send_ctrl_c_no_setClipboard env.sim s hmem
    · intro hmem
      rw [htuple] at hmem
      simp at hmem
      exact send_ctrl_c_no_pressV env.sim hmem
  · have htuple : remove_newlines_and_paste env clip =
        ((send_ctrl_c env.sim).1 ++ [Step.sleepMs 150, Step.getClipboard] ++
            [Step.setClipboard (removeNewlines clip)],
          clip, Except.error PipeErr.clipboardWriteFailure) := by
      simp [remove_newlines_and_paste, hcopy, hread, hne, hwrite]
    refine ⟨by rw [htuple], ?_, by rw [htuple]⟩
    intro hmem
    rw [htuple] at hmem
    simp at hmem
    exact send_ctrl_c_no_pressV env.sim hmem

/-- Witness for claim C6: with a failing clipboard write, the pipeline
reports the write failure and the clipboard still holds the original
text. -/
theorem pipeline_short_circuits_witness :
    (remove_newlines_and_paste envWriteFail ['a']).2.2 =
      Except.error PipeErr.clipboardWriteFailure ∧
    (remove_newlines_and_paste envWriteFail ['a']).2.1 = ['a'] := by
  have h := (pipeline_short_circuits envWriteFail ['a']).2.2 rfl rfl
    (by decide) rfl
  exact ⟨h.1, h.2.2⟩

/-- Claim C7: the copy chord and the paste chord execute the identical
sub-protocol, differing only in the letter key: press modifier, wait
30 ms, press letter, wait 30 ms, release letter, wait 30 ms, release
modifier; the chord succeeds exactly when all four press/release calls
succeed, and if one fails the remainder of the chord is aborted. -/
theorem chords_follow_subprotocol (sim : EventType → Bool) :
    send_ctrl_c sim = chordSpec Key.keyC sim ∧
    send_ctrl_v sim = chordSpec Key.keyV sim ∧
    ((send_ctrl_c sim).2 = true ↔
      sim (EventType.press Key.controlLeft) = true ∧
      sim (EventType.press Key.keyC) = true ∧
      sim (EventType.release Key.keyC) = true ∧
      sim (EventType.release Key.controlLeft) = true) ∧
    ((send_ctrl_v sim).2 = true ↔
      sim (EventType.press Key.controlLeft) = true ∧
      sim (EventType.press Key.keyV) = true ∧
      sim (EventType.release Key.keyV) = true ∧
      sim (EventType.release Key.controlLeft) = true) ∧
    (sim (EventType.press Key.controlLeft) = true →
      sim (EventType.press Key.keyC) = true →
      sim (EventType.release Key.keyC) = true →
      sim (EventType.release Key.controlLeft) = true →
      (send_ctrl_c sim).1 =
        [Step.simulate (EventType.press Key.controlLeft), Step.sleepMs 30,
          Step.simulate (EventType.press Key.keyC), Step.sleepMs 30,
          Step.simulate (EventType.release Key.keyC), Step.sleepMs 30,
          Step.simulate (EventType.release Key.controlLeft)]) ∧
    (sim (EventType.press Key.controlLeft) = false →
      (send_ctrl_c sim).1 =
        [Step.simulate (EventType.press Key.controlLeft)] ∧
      (send_ctrl_v sim).1 =
        [Step.simulate (EventType.press Key.controlLeft)]) ∧
    (sim (EventType.press Key.keyC) = false →
      Step.simulate (EventType.release Key.keyC) ∉ (send_ctrl_c sim).1 ∧
      Step.simulate (EventType.release Key.controlLeft) ∉
        (send_ctrl_c sim).1) ∧
    (sim (EventType.release Key.keyC) = false →
      Step.simulate (EventType.release Key.controlLeft) ∉
        (send_ctrl_c sim).1) ∧
    (sim (EventType.press Key.keyV) = false →
      Step.simulate (EventType.release Key.keyV) ∉ (send_ctrl_v sim).1 ∧
      Step.simulate (EventType.release Key.controlLeft) ∉
        (send_ctrl_v sim).1) ∧
    (sim (EventType.release Key.keyV) = false →
      Step.simulate (EventType.release Key.controlLeft) ∉
        (send_ctrl_v sim).1) := by
  refine ⟨rfl, rfl, ?_, ?_, ?_, ?_, ?_, ?_, ?_, ?_⟩
  · unfold send_ctrl_c
    split_ifs <;> simp_all
  · unfold send_ctrl_v
    split_ifs <;> simp_all
  · unfold send_ctrl_c
    split_ifs <;> simp_all
  · unfold send_ctrl_c send_ctrl_v
    split_ifs <;> simp_all
  · unfold send_ctrl_c
    split_ifs <;> simp_all
  · unfold send_ctrl_c
    split_ifs <;> simp_all
  · unfold send_ctrl_v
    split_ifs <;> simp_all
  · unfold send_ctrl_v
    split_ifs <;> simp_all

/-- Witness for claim C7: when every simulation call succeeds, the copy
chord performs the full seven-step protocol. -/
theorem chords_follow_subprotocol_witness :
    (send_ctrl_c simAllOk).1 =
      [Step.simulate (EventType.press Key.controlLeft), Step.sleepMs 30,
        Step.simulate (EventType.press Key.keyC), Step.sleepMs 30,
        Step.simulate (EventType.release Key.keyC), Step.sleepMs 30,
        Step.simulate (EventType.release Key.controlLeft)] :=
  (chords_follow_subprotocol simAllOk).2.2.2.2.1 rfl rfl rfl rfl

/-- The listener loop splits over a concatenation of event lists: after
any prefix of events, whatever their outcomes, the loop goes on to process
the remaining events from the resulting clipboard state. -/
lemma listenerLoop_append (target : Key) (env : Env) (evs1 : List EventType) :
    ∀ (clip : List Char) (evs2 : List EventType),
      listenerLoop target env clip (evs1 ++ evs2) =
        ((listenerLoop target env clip evs1).1 ++
          (listenerLoop target env
            (listenerLoop target env clip evs1).2 evs2).1,
         (listenerLoop target env
            (listenerLoop target env clip evs1).2 evs2).2) := by
  induction evs1 with
  | nil => intro clip evs2; simp [listenerLoop]
  | cons ev evs ih => intro clip evs2; simp [listenerLoop, ih]

/-- Claim C8: the listener callback invokes the pipeline exactly on a
press of the trigger key; all other events are discarded with no side
effect; a pipeline error is caught and logged at the callback boundary,
and the loop keeps processing later events regardless. -/
theorem listener_dispatch (target : Key) (env : Env) (clip : List Char) :
    callback target env clip (EventType.press target) =
      ((remove_newlines_and_paste env clip).1,
        (remove_newlines_and_paste env clip).2.1,
        loggedError (remove_newlines_and_paste env clip).2.2) ∧
    (∀ k, k ≠ target →
      callback target env clip (EventType.press k) = ([], clip, none)) ∧
    (∀ k, callback target env clip (EventType.release k) =
      ([], clip, none)) ∧
    (∀ evs1 evs2,
      listenerLoop target env clip (evs1 ++ evs2) =
        ((listenerLoop target env clip evs1).1 ++
          (listenerLoop target env
            (listenerLoop target env clip evs1).2 evs2).1,
         (listenerLoop target env
            (listenerLoop target env clip evs1).2 evs2).2)) := by
  refine ⟨?_, ?_, ?_, ?_⟩
  · simp [callback]
  · intro k hk
    simp [callback, hk]
  · intro k
    simp [callback]
  · intro evs1 evs2
    exact listenerLoop_append target env evs1 clip evs2

/-- Witness for claim C8: a press of a key other than the trigger key is
discarded with no side effect. -/
theorem listener_dispatch_witness :
    callback (Key.other 0) envAllOk ['a'] (EventType.press Key.keyV) =
      ([], ['a'], none) :=
  (listener_dispatch (Key.other 0) envAllOk ['a']).2.1 Key.keyV (by decide)

end FlattenString
